import Mathlib

/-!
Shallow embedding of `src/services/core-engine/src/main.rs` from
ALICE-Cloud-Gateway-SaaS: an axum HTTP service with handlers
`health`, `connect`, `sync_data`, `transform`, `create_mesh`,
`protocols` and `stats` over a shared `AppState`.

Modelling choices:
* `u64`/`u32`/`usize` counters become `Nat` (the only arithmetic is small
  additive increments starting from zero, so machine-word wraparound is
  out of reach for any run the claims quantify over).
* `serde_json::Value` becomes the inductive `JsonVal` (numbers as `Int`,
  which covers every payload the claims mention).
* `uuid::Uuid::new_v4().to_string()` is a random draw from the
  environment: like the clock readings, each drawn uuid is passed to the
  handler as an explicit `String` argument.  The model imposes no
  distinctness on the draws — a collision between two draws is a possible
  execution, exactly as for the real random generator.
* `Instant`-derived readings (`elapsed_us`, `uptime_secs`) are passed in as
  explicit arguments, since they come from the environment clock.
* `f64` literals (`latency_ms` etc.) become exact `Rat` values; every float
  the source writes (8.5, 15.0 + i * 5.0, ...) is exactly representable.
* Handlers are pure functions `AppState → Request → ... → AppState × Response`,
  mirroring the lock-guarded mutation of `AppState.stats`.
-/

/-- JSON values, embedding `serde_json::Value`. -/
inductive JsonVal where
  | null : JsonVal
  | bool (b : Bool) : JsonVal
  | num (n : Int) : JsonVal
  | str (s : String) : JsonVal
  | arr (xs : List JsonVal) : JsonVal
  | obj (fields : List (String × JsonVal)) : JsonVal

/-- `struct Stats` (main.rs line 9): the four process-wide counters. -/
structure Stats where
  total_connections : Nat
  total_syncs : Nat
  total_transforms : Nat
  bytes_relayed : Nat
deriving Repr, DecidableEq

/-- `struct AppState` (main.rs line 8).  `start_time` is environmental and
is passed to `health` as an argument, so only the counters remain. -/
structure AppState where
  stats : Stats
deriving Repr, DecidableEq

/-- The state at process start (main.rs line 44): all counters zero. -/
def initState : AppState :=
  { stats := { total_connections := 0, total_syncs := 0, total_transforms := 0,
               bytes_relayed := 0 } }

/-- `struct ConnectRequest` (main.rs line 15). -/
structure ConnectRequest where
  device_id : String
  protocol : Option String
  region : Option String

/-- `struct ConnectResponse` (main.rs line 17); `connection_id` is the
uuid drawn for this request. -/
structure ConnectResponse where
  connection_id : String
  device_id : String
  protocol : String
  region : String
  endpoint : String
  status : String

/-- `struct SyncRequest` (main.rs line 20). -/
structure SyncRequest where
  connection_id : String
  sdf_delta : Option JsonVal
  timestamp : Option String

/-- `struct SyncResponse` (main.rs line 22). -/
structure SyncResponse where
  sync_id : String
  status : String
  objects_synced : Nat
  sdf_bytes_transferred : Nat
  latency_ms : Rat

/-- `struct TransformRequest` (main.rs line 25). -/
structure TransformRequest where
  source_protocol : String
  target_protocol : String
  payload : JsonVal

/-- `struct TransformResponse` (main.rs line 27). -/
structure TransformResponse where
  transform_id : String
  source : String
  target : String
  output : JsonVal
  elapsed_us : Nat

/-- `struct MeshRequest` (main.rs line 30). -/
structure MeshRequest where
  devices : List String
  topology : Option String

/-- `struct MeshConnection` (main.rs line 34); fields `from`/`to` in the
source are `fromDev`/`toDev` here (`from` is a Lean keyword). -/
structure MeshConnection where
  fromDev : String
  toDev : String
  latency_ms : Rat

/-- `struct MeshResponse` (main.rs line 32). -/
structure MeshResponse where
  mesh_id : String
  devices : Nat
  topology : String
  connections : List MeshConnection
  status : String

/-- `struct ProtocolInfo` (main.rs line 37). -/
structure ProtocolInfo where
  name : String
  description : String
  latency_ms : Rat
  throughput_mbps : Rat

/-- `struct Health` (main.rs line 12). -/
structure Health where
  status : String
  version : String
  uptime_secs : Nat
  total_ops : Nat

/-- `struct StatsResponse` (main.rs line 39). -/
structure StatsResponse where
  total_connections : Nat
  total_syncs : Nat
  total_transforms : Nat
  bytes_relayed : Nat
  active_meshes : Nat
deriving Repr, DecidableEq

/-- Handler `health` (main.rs lines 61-64).  `uptime` and `version` are the
environmental inputs (`start_time.elapsed()`, `CARGO_PKG_VERSION`). -/
def health (s : AppState) (uptime : Nat) (version : String) : Health :=
  { status := "ok", version := version, uptime_secs := uptime,
    total_ops := s.stats.total_connections + s.stats.total_syncs }

/-- Handler `connect` (main.rs lines 66-71): defaults protocol/region,
increments `total_connections`, and returns as `connection_id` the uuid
`u` the environment drew for this request (`uuid::Uuid::new_v4()`). -/
def connect (s : AppState) (req : ConnectRequest) (u : String) :
    AppState × ConnectResponse :=
  let protocol := req.protocol.getD "sdf-stream"
  let region := req.region.getD "us-east-1"
  ({ s with
      stats := { s.stats with
                  total_connections := s.stats.total_connections + 1 } },
   { connection_id := u, device_id := req.device_id,
     protocol := protocol, region := region,
     endpoint := "wss://gateway.alice-platform.com/" ++ region,
     status := "connected" })

/-- Handler `sync_data` (main.rs lines 73-77): the request is ignored
(bound as `_req` in the source); `bytes = 4096`; `total_syncs` and
`bytes_relayed` are incremented unconditionally; the response carries the
fixed constants 12 and 4096, latency 8.5, and the drawn uuid `u` as
`sync_id`. -/
def sync_data (s : AppState) (_req : SyncRequest) (u : String) :
    AppState × SyncResponse :=
  let bytes : Nat := 4096
  ({ s with
      stats := { s.stats with
                  total_syncs := s.stats.total_syncs + 1,
                  bytes_relayed := s.stats.bytes_relayed + bytes } },
   { sync_id := u, status := "synced", objects_synced := 12,
     sdf_bytes_transferred := bytes, latency_ms := (8.5 : Rat) })

/-- Handler `transform` (main.rs lines 79-83): increments
`total_transforms` and echoes the request payload as `output`; `u` is the
drawn uuid and `elapsedUs` the environmental `t.elapsed().as_micros()`
reading. -/
def transform (s : AppState) (req : TransformRequest) (u : String)
    (elapsedUs : Nat) : AppState × TransformResponse :=
  ({ s with
      stats := { s.stats with
                  total_transforms := s.stats.total_transforms + 1 } },
   { transform_id := u, source := req.source_protocol,
     target := req.target_protocol, output := req.payload,
     elapsed_us := elapsedUs })

/-- Handler `create_mesh` (main.rs lines 85-90): for `count ≥ 2` devices it
builds the consecutive-pair edges `devices[i] → devices[i+1]` for
`i ∈ 0..count-1` with latency `15.0 + i * 5.0`, otherwise no edges; the
`topology` field is echoed (defaulted to `full-mesh`) but never used to
choose the edge set, and no input is rejected.  `u` is the drawn uuid. -/
def create_mesh (s : AppState) (req : MeshRequest) (u : String) :
    AppState × MeshResponse :=
  let topology := req.topology.getD "full-mesh"
  let count := req.devices.length
  let connections : List MeshConnection :=
    if count ≥ 2 then
      (List.range (count - 1)).map (fun i =>
        { fromDev := req.devices.getD i "",
          toDev := req.devices.getD (i + 1) "",
          latency_ms := 15 + (i : Rat) * 5 })
    else []
  (s,
   { mesh_id := u, devices := count, topology := topology,
     connections := connections, status := "established" })

/-- Handler `protocols` (main.rs lines 92-98): the static registry. -/
def protocols : List ProtocolInfo :=
  [ { name := "sdf-stream",
      description := "SDF delta streaming for spatial data sync",
      latency_ms := 8, throughput_mbps := 100 },
    { name := "mqtt-bridge",
      description := "MQTT to SDF protocol bridge for IoT devices",
      latency_ms := 15, throughput_mbps := 10 },
    { name := "grpc-relay",
      description := "gRPC relay for microservice communication",
      latency_ms := 5, throughput_mbps := 500 } ]

/-- Handler `stats` (main.rs lines 100-103): read-only snapshot. -/
def stats (s : AppState) : StatsResponse :=
  { total_connections := s.stats.total_connections,
    total_syncs := s.stats.total_syncs,
    total_transforms := s.stats.total_transforms,
    bytes_relayed := s.stats.bytes_relayed,
    active_meshes := 1 }

/-- One inbound request, selecting a handler (the routes of main.rs
lines 46-53).  The uuid the environment draws for the request and the
environmental clock readings travel with the request. -/
inductive Op where
  | opConnect (req : ConnectRequest) (u : String) : Op
  | opSync (req : SyncRequest) (u : String) : Op
  | opTransform (req : TransformRequest) (u : String) (elapsedUs : Nat) : Op
  | opMesh (req : MeshRequest) (u : String) : Op
  | opHealth (uptime : Nat) (version : String) : Op
  | opProtocols : Op
  | opStats : Op

/-- State transition of one request: the state each handler leaves behind
(`health`, `protocols` and `stats` never mutate). -/
def step (s : AppState) : Op → AppState
  | .opConnect req u => (connect s req u).1
  | .opSync req u => (sync_data s req u).1
  | .opTransform req u e => (transform s req u e).1
  | .opMesh req u => (create_mesh s req u).1
  | .opHealth _ _ => s
  | .opProtocols => s
  | .opStats => s

/-- Running a sequence of requests from a state. -/
def run (s : AppState) : List Op → AppState
  | [] => s
  | op :: ops => run (step s op) ops

/-- Componentwise order on the four counters. -/
def statsLE (s t : Stats) : Prop :=
  s.total_connections ≤ t.total_connections ∧
  s.total_syncs ≤ t.total_syncs ∧
  s.total_transforms ≤ t.total_transforms ∧
  s.bytes_relayed ≤ t.bytes_relayed

theorem statsLE_refl (s : Stats) : statsLE s s :=
  ⟨le_refl _, le_refl _, le_refl _, le_refl _⟩

theorem statsLE_trans {s t u : Stats} (h1 : statsLE s t) (h2 : statsLE t u) :
    statsLE s u :=
  ⟨le_trans h1.1 h2.1, le_trans h1.2.1 h2.2.1,
   le_trans h1.2.2.1 h2.2.2.1, le_trans h1.2.2.2 h2.2.2.2⟩

theorem step_statsLE (s : AppState) (op : Op) : statsLE s.stats (step s op).stats := by
  cases op <;>
    simp [step, connect, sync_data, transform, create_mesh, statsLE]

theorem run_statsLE (s : AppState) (ops : List Op) :
    statsLE s.stats (run s ops).stats := by
  induction ops generalizing s with
  | nil => exact statsLE_refl _
  | cons op ops ih => exact statsLE_trans (step_statsLE s op) (ih (step s op))

/-- C1: the claim says a `sync` whose connection_id is not in the
Connection Table fails with `UnknownConnection` and leaves `total_syncs`
and `bytes_relayed` unchanged.  The code has no connection table and no
failure path: evaluated at process start (no `connect` ever issued an id,
so `"deadbeef"` is certainly unknown), `sync_data` returns status
`"synced"` and increments `total_syncs` to 1 and `bytes_relayed` to
4096. -/
theorem C1_sync_unknown_connection_succeeds :
    (sync_data initState
        { connection_id := "deadbeef", sdf_delta := none,
          timestamp := none } "7df7e209-4a4c-4f0b-9a81-2d3ea1c09a10").2.status
      = "synced" ∧
    (sync_data initState
        { connection_id := "deadbeef", sdf_delta := none,
          timestamp := none } "7df7e209-4a4c-4f0b-9a81-2d3ea1c09a10").1.stats.total_syncs
      = 1 ∧
    (sync_data initState
        { connection_id := "deadbeef", sdf_delta := none,
          timestamp := none } "7df7e209-4a4c-4f0b-9a81-2d3ea1c09a10").1.stats.bytes_relayed
      = 4096 :=
  ⟨rfl, rfl, rfl⟩

/-- C2: the claim says a `transform` whose source or target protocol is
outside the registry (exactly sdf-stream, mqtt-bridge, grpc-relay) fails
with `UnsupportedProtocol` without incrementing `total_transforms`.  The
code never consults the registry: with unregistered source `"bogus"` it
still increments `total_transforms` to 1 and answers normally. -/
theorem C2_transform_unregistered_protocol_succeeds :
    protocols.map ProtocolInfo.name =
      ["sdf-stream", "mqtt-bridge", "grpc-relay"] ∧
    "bogus" ∉ protocols.map ProtocolInfo.name ∧
    (transform initState
        { source_protocol := "bogus", target_protocol := "sdf-stream",
          payload := JsonVal.null }
        "54ab3c10-6e7f-4b21-9c44-d05132a6b7f8" 0).1.stats.total_transforms
      = 1 ∧
    (transform initState
        { source_protocol := "bogus", target_protocol := "sdf-stream",
          payload := JsonVal.null }
        "54ab3c10-6e7f-4b21-9c44-d05132a6b7f8" 0).2.source = "bogus" := by
  refine ⟨rfl, by decide, rfl, rfl⟩

/-- C3: the claim says `transform` performs a structural conversion and
never returns the payload unchanged.  The code echoes the payload: for
every state, request (registered protocols included), drawn uuid and
clock reading, the `output` field is identically the request payload. -/
theorem C3_transform_echoes_payload (s : AppState) (req : TransformRequest)
    (u : String) (e : Nat) : (transform s req u e).2.output = req.payload :=
  rfl

/-- C4: the claim says `mesh` with topology `ring` on devices [A,B,C]
yields edges [(A,B),(B,C),(C,A)].  The code ignores the topology when
building edges: with topology `ring` it returns only the line edges
[(A,B),(B,C)] — the closing edge C→A is missing — while echoing
`"ring"` in the response. -/
theorem C4_mesh_ring_missing_closing_edge :
    (create_mesh initState
        { devices := ["A", "B", "C"], topology := some "ring" }
        "c9d6a3f1-2b40-4e8d-8f77-6a5b4c3d2e1f").2.connections.map
        (fun e => (e.fromDev, e.toDev)) = [("A", "B"), ("B", "C")] ∧
    (create_mesh initState
        { devices := ["A", "B", "C"], topology := some "ring" }
        "c9d6a3f1-2b40-4e8d-8f77-6a5b4c3d2e1f").2.topology = "ring" :=
  ⟨rfl, rfl⟩

/-- C5 counterexample: the claim says any two distinct successful
`connect` calls in one process lifetime return distinct connection ids.
`connection_id` is `uuid::Uuid::new_v4()` — a random draw with no
distinctness mechanism in the code — so the execution in which the
generator hands the same uuid to two consecutive `connect` calls is
possible, and there both calls return the very same connection id while
both succeed (status `"connected"`, `total_connections` reaching 2). -/
theorem C5_connect_id_collision :
    (connect initState
        { device_id := "dev-a", protocol := none, region := none }
        "3f2b8c71-95d4-4e06-8a31-7c0f9d6e5b4a").2.connection_id =
      (connect (connect initState
            { device_id := "dev-a", protocol := none, region := none }
            "3f2b8c71-95d4-4e06-8a31-7c0f9d6e5b4a").1
          { device_id := "dev-b", protocol := none, region := none }
          "3f2b8c71-95d4-4e06-8a31-7c0f9d6e5b4a").2.connection_id ∧
    (connect initState
        { device_id := "dev-a", protocol := none, region := none }
        "3f2b8c71-95d4-4e06-8a31-7c0f9d6e5b4a").2.status = "connected" ∧
    (connect (connect initState
          { device_id := "dev-a", protocol := none, region := none }
          "3f2b8c71-95d4-4e06-8a31-7c0f9d6e5b4a").1
        { device_id := "dev-b", protocol := none, region := none }
        "3f2b8c71-95d4-4e06-8a31-7c0f9d6e5b4a").2.status = "connected" ∧
    (connect (connect initState
          { device_id := "dev-a", protocol := none, region := none }
          "3f2b8c71-95d4-4e06-8a31-7c0f9d6e5b4a").1
        { device_id := "dev-b", protocol := none, region := none }
        "3f2b8c71-95d4-4e06-8a31-7c0f9d6e5b4a").1.stats.total_connections = 2 :=
  ⟨rfl, rfl, rfl, rfl⟩

/-- C5 (amended): two successful `connect` calls at different positions
of one process run (arbitrary operations before, between and after)
return distinct connection ids PROVIDED the uuid generator drew distinct
values for them — the code passes the draws through unchanged and adds
no distinctness of its own — and each `connect` bumps
`total_connections` by exactly 1 while leaving `total_syncs`,
`total_transforms` and `bytes_relayed` unchanged. -/
theorem C5_connect_ids_distinct_if_draws_distinct (s : AppState)
    (ops1 ops2 : List Op) (r1 r2 : ConnectRequest) (u1 u2 : String)
    (h : u1 ≠ u2) :
    (connect (run s ops1) r1 u1).2.connection_id ≠
      (connect (run (connect (run s ops1) r1 u1).1 ops2) r2 u2).2.connection_id ∧
    (connect (run s ops1) r1 u1).1.stats.total_connections =
      (run s ops1).stats.total_connections + 1 ∧
    (connect (run s ops1) r1 u1).1.stats.total_syncs =
      (run s ops1).stats.total_syncs ∧
    (connect (run s ops1) r1 u1).1.stats.total_transforms =
      (run s ops1).stats.total_transforms ∧
    (connect (run s ops1) r1 u1).1.stats.bytes_relayed =
      (run s ops1).stats.bytes_relayed :=
  ⟨h, rfl, rfl, rfl, rfl⟩

/-- Witness for C5 (amended) at two concrete distinct draws. -/
theorem C5_connect_ids_distinct_witness :
    ("11111111-1111-4111-8111-111111111111" : String) ≠
      "22222222-2222-4222-8222-222222222222" ∧
    ((connect (run initState [])
        { device_id := "dev-a", protocol := none, region := none }
        "11111111-1111-4111-8111-111111111111").2.connection_id ≠
      (connect (run (connect (run initState [])
            { device_id := "dev-a", protocol := none, region := none }
            "11111111-1111-4111-8111-111111111111").1 [])
          { device_id := "dev-b", protocol := none, region := none }
          "22222222-2222-4222-8222-222222222222").2.connection_id ∧
     (connect (run initState [])
        { device_id := "dev-a", protocol := none, region := none }
        "11111111-1111-4111-8111-111111111111").1.stats.total_connections =
       (run initState []).stats.total_connections + 1 ∧
     (connect (run initState [])
        { device_id := "dev-a", protocol := none, region := none }
        "11111111-1111-4111-8111-111111111111").1.stats.total_syncs =
       (run initState []).stats.total_syncs ∧
     (connect (run initState [])
        { device_id := "dev-a", protocol := none, region := none }
        "11111111-1111-4111-8111-111111111111").1.stats.total_transforms =
       (run initState []).stats.total_transforms ∧
     (connect (run initState [])
        { device_id := "dev-a", protocol := none, region := none }
        "11111111-1111-4111-8111-111111111111").1.stats.bytes_relayed =
       (run initState []).stats.bytes_relayed) :=
  ⟨by decide,
   C5_connect_ids_distinct_if_draws_distinct initState [] []
     { device_id := "dev-a", protocol := none, region := none }
     { device_id := "dev-b", protocol := none, region := none }
     "11111111-1111-4111-8111-111111111111"
     "22222222-2222-4222-8222-222222222222" (by decide)⟩

/-- C6: the claim says `objects_synced` counts the top-level entries of
the delta payload and `sdf_bytes_transferred` is its serialized byte
length.  The code returns the fixed constants 12 and 4096 for every
state and every request — in particular for an empty-object delta, whose
top-level entry count is 0, not 12. -/
theorem C6_sync_fixed_constants (s : AppState) (req : SyncRequest)
    (u : String) :
    (sync_data s req u).2.objects_synced = 12 ∧
    (sync_data s req u).2.sdf_bytes_transferred = 4096 :=
  ⟨rfl, rfl⟩

/-- C7: the claim says an empty device list fails with `InvalidInput`
and a single device succeeds with zero edges and count 1.  The code
rejects nothing: the empty list also succeeds (status `"established"`,
devices 0, no edges); the single-device half does hold (zero edges,
devices 1). -/
theorem C7_mesh_empty_not_rejected :
    (create_mesh initState { devices := [], topology := none }
        "e1d2c3b4-a596-4877-b869-5a4b3c2d1e0f").2.status = "established" ∧
    (create_mesh initState { devices := [], topology := none }
        "e1d2c3b4-a596-4877-b869-5a4b3c2d1e0f").2.devices = 0 ∧
    (create_mesh initState { devices := [], topology := none }
        "e1d2c3b4-a596-4877-b869-5a4b3c2d1e0f").2.connections = [] ∧
    (create_mesh initState { devices := ["A"], topology := none }
        "e1d2c3b4-a596-4877-b869-5a4b3c2d1e0f").2.connections = [] ∧
    (create_mesh initState { devices := ["A"], topology := none }
        "e1d2c3b4-a596-4877-b869-5a4b3c2d1e0f").2.devices = 1 :=
  ⟨rfl, rfl, rfl, rfl, rfl⟩

/-- C8: `mesh` with topology `line` on three pairwise-consecutive
distinct devices [a,b,c] yields exactly the consecutive edges
[(a,b),(b,c)], and no edge is a self-edge. -/
theorem C8_mesh_line_consecutive_edges (s : AppState) (a b c : String)
    (u : String) (hab : a ≠ b) (hbc : b ≠ c) :
    (create_mesh s
        { devices := [a, b, c], topology := some "line" } u).2.connections.map
        (fun e => (e.fromDev, e.toDev)) = [(a, b), (b, c)] ∧
    ∀ e ∈ (create_mesh s
        { devices := [a, b, c], topology := some "line" } u).2.connections,
      e.fromDev ≠ e.toDev := by
  have hconn : (create_mesh s
      { devices := [a, b, c], topology := some "line" } u).2.connections =
      [{ fromDev := a, toDev := b, latency_ms := 15 + (0 : Rat) * 5 },
       { fromDev := b, toDev := c, latency_ms := 15 + (1 : Rat) * 5 }] := rfl
  constructor
  · rw [hconn]
    rfl
  · intro e he
    rw [hconn] at he
    simp only [List.mem_cons, List.not_mem_nil, or_false] at he
    rcases he with rfl | rfl
    · exact hab
    · exact hbc

/-- Witness for C8 at the concrete devices A, B, C. -/
theorem C8_mesh_line_consecutive_edges_witness :
    (("A" : String) ≠ "B" ∧ ("B" : String) ≠ "C") ∧
    ((create_mesh initState
        { devices := ["A", "B", "C"], topology := some "line" }
        "f0e1d2c3-b4a5-4968-8778-695a4b3c2d1e").2.connections.map
        (fun e => (e.fromDev, e.toDev)) = [("A", "B"), ("B", "C")] ∧
     ∀ e ∈ (create_mesh initState
        { devices := ["A", "B", "C"], topology := some "line" }
        "f0e1d2c3-b4a5-4968-8778-695a4b3c2d1e").2.connections,
       e.fromDev ≠ e.toDev) :=
  ⟨⟨by decide, by decide⟩,
   C8_mesh_line_consecutive_edges initState "A" "B" "C"
     "f0e1d2c3-b4a5-4968-8778-695a4b3c2d1e" (by decide) (by decide)⟩

/-- C9: across any sequence of requests within one process run, every
counter reported by the `stats` endpoint (total_connections, total_syncs,
total_transforms, bytes_relayed) is at least its value before the
sequence — no operation ever decreases any of them. -/
theorem C9_stats_counters_monotone (s : AppState) (ops : List Op) :
    (stats s).total_connections ≤ (stats (run s ops)).total_connections ∧
    (stats s).total_syncs ≤ (stats (run s ops)).total_syncs ∧
    (stats s).total_transforms ≤ (stats (run s ops)).total_transforms ∧
    (stats s).bytes_relayed ≤ (stats (run s ops)).bytes_relayed := by
  have h := run_statsLE s ops
  exact ⟨h.1, h.2.1, h.2.2.1, h.2.2.2⟩

/-- C10: `/health` reports `total_ops = total_connections + total_syncs`;
a `transform` increments `total_transforms` but leaves `total_ops`
unchanged, and a `mesh` call also leaves `total_ops` unchanged — neither
is counted as an operation by `/health`. -/
theorem C10_health_total_ops_excludes_transforms (s : AppState)
    (u : Nat) (v : String) :
    (health s u v).total_ops =
      s.stats.total_connections + s.stats.total_syncs ∧
    (∀ req uu e u2 v2,
      (health (transform s req uu e).1 u2 v2).total_ops =
        (health s u v).total_ops) ∧
    (∀ req uu e,
      (transform s req uu e).1.stats.total_transforms =
        s.stats.total_transforms + 1) ∧
    (∀ req uu u2 v2,
      (health (create_mesh s req uu).1 u2 v2).total_ops =
        (health s u v).total_ops) :=
  ⟨rfl, fun _ _ _ _ _ => rfl, fun _ _ _ => rfl, fun _ _ _ _ => rfl⟩
